import Mathlib

/-!
# LawFlow — verification of the generation/publish core

Shallow embedding of the LawFlow generation-orchestration engine:
the data model (`src/database/models.py`), the repository queries
(`src/database/repositories/*.py`), the stage gate and prompt builder
(`src/services/generation_service.py`, `src/services/prompt_service.py`),
the markdown block sanitizer (`src/integrations/markdown_converter.py`)
and the two-system publish transaction (`src/services/output_service.py`).

The relational store is embedded as explicit list-valued state (`DB`);
SQL queries become list filters/sorts; the external Notion/Drive clients
are embedded as an environment of call outcomes (`RemoteEnv`) together
with a log of the remote calls the coordinator issues (`RemoteCall`).
Python string operations are embedded character-based (`pyLen`, `pyTake`),
matching Python `len`/slicing semantics.
-/

namespace LawFlow

/-! ## Enums (src/database/models.py) -/

inductive ContentType where
  | LECTURE_PDF
  | SOURCE_MATERIAL
  | TUTORIAL_PDF
  | TRANSCRIPT
deriving DecidableEq, Repr

inductive Stage where
  | MK1
  | MK2
  | MK3
deriving DecidableEq, Repr

inductive GenerationStatus where
  | PENDING
  | COMPLETED
  | FAILED
deriving DecidableEq, Repr

/-- The string payload of the `ContentType` enum members. -/
def ContentType.value : ContentType → String
  | .LECTURE_PDF => "LECTURE_PDF"
  | .SOURCE_MATERIAL => "SOURCE_MATERIAL"
  | .TUTORIAL_PDF => "TUTORIAL_PDF"
  | .TRANSCRIPT => "TRANSCRIPT"

/-- The string payload of the `Stage` enum members. -/
def Stage.value : Stage → String
  | .MK1 => "MK1"
  | .MK2 => "MK2"
  | .MK3 => "MK3"

/-- The string payload of the `GenerationStatus` enum members. -/
def GenerationStatus.value : GenerationStatus → String
  | .PENDING => "PENDING"
  | .COMPLETED => "COMPLETED"
  | .FAILED => "FAILED"

/-! ## Python string helpers

Python strings are sequences of characters; `len` and slicing count
characters.  Lean `String` is kept as carrier, with the character-based
operations made explicit. -/

/-- Python `len(s)` — number of characters. -/
def pyLen (s : String) : Nat := s.data.length

/-- Python `s[:n]` — first `n` characters. -/
def pyTake (s : String) (n : Nat) : String := String.mk (s.data.take n)

/-- Python truthiness of an optional string: `None` and `""` are falsy
(`if not previous_content: ...`). -/
def optStrFalsy : Option String → Bool
  | none => true
  | some s => s.isEmpty

/-- One step of Python `str.title()`: upper-case a cased character that
follows a non-cased one, lower-case the rest.  The boolean tracks whether
the previous character was cased. -/
def pyTitleGo : Bool → List Char → List Char
  | _, [] => []
  | prevCased, c :: cs =>
    let cased := c.isAlpha
    let c' := if cased then (if prevCased then c.toLower else c.toUpper) else c
    c' :: pyTitleGo cased cs

/-- Python `s.replace('_', ' ').title()` as used for the human-readable
missing-requirement names in `GenerationService.can_generate_stage`. -/
def pyTitleOfUnderscored (s : String) : String :=
  String.mk (pyTitleGo false (s.data.map (fun c => if c = '_' then ' ' else c)))

/-! ## Records (src/database/models.py) -/

structure Module where
  id : String
  name : String
  claude_project_name : Option String
  notion_database_id : Option String
  created_at : Nat
  updated_at : Nat
deriving DecidableEq, Repr

structure Topic where
  id : String
  module_id : String
  name : String
  created_at : Nat
  updated_at : Nat
deriving DecidableEq, Repr

structure ContentItem where
  id : String
  topic_id : String
  content_type : ContentType
  file_name : String
  drive_file_id : Option String
  drive_url : Option String
  uploaded_at : Nat
  file_size_bytes : Nat
  is_active : Bool
deriving DecidableEq, Repr

structure Generation where
  id : String
  topic_id : String
  stage : Stage
  version : Nat
  prompt_used : String
  response_content : Option String
  notion_page_id : Option String
  notion_url : Option String
  drive_backup_id : Option String
  drive_backup_url : Option String
  previous_generation_id : Option String
  created_at : Nat
  status : GenerationStatus
deriving DecidableEq, Repr

/-- Embeds `Generation.create` (models.py): a fresh PENDING record.  The uuid and
timestamp the Python code generates become the explicit `new_id`/`now`
arguments. -/
def Generation.create (topic_id : String) (stage : Stage) (version : Nat)
    (prompt_used : String) (previous_generation_id : Option String)
    (new_id : String) (now : Nat) : Generation :=
  { id := new_id
    topic_id := topic_id
    stage := stage
    version := version
    prompt_used := prompt_used
    response_content := none
    notion_page_id := none
    notion_url := none
    drive_backup_id := none
    drive_backup_url := none
    previous_generation_id := previous_generation_id
    created_at := now
    status := GenerationStatus.PENDING }

/-- The relational store, one list per table, rows in insertion order. -/
structure DB where
  modules : List Module
  topics : List Topic
  content_items : List ContentItem
  generations : List Generation
deriving DecidableEq, Repr

/-! ## Sort orders used by the repository queries (`ORDER BY ... DESC`) -/

/-- Embeds `ORDER BY version DESC` comparison for generations. -/
def versionGE (a b : Generation) : Prop := b.version ≤ a.version

instance : DecidableRel versionGE :=
  fun a b => inferInstanceAs (Decidable (b.version ≤ a.version))

instance : IsTotal Generation versionGE :=
  ⟨fun a b => (le_total b.version a.version).elim Or.inl Or.inr⟩

instance : IsTrans Generation versionGE :=
  ⟨fun _ _ _ h1 h2 => le_trans h2 h1⟩

/-- Embeds `ORDER BY created_at DESC` comparison for generations. -/
def createdGE (a b : Generation) : Prop := b.created_at ≤ a.created_at

instance : DecidableRel createdGE :=
  fun a b => inferInstanceAs (Decidable (b.created_at ≤ a.created_at))

/-- Embeds `ORDER BY uploaded_at DESC` comparison for content items. -/
def uploadedGE (a b : ContentItem) : Prop := b.uploaded_at ≤ a.uploaded_at

instance : DecidableRel uploadedGE :=
  fun a b => inferInstanceAs (Decidable (b.uploaded_at ≤ a.uploaded_at))

/-! ## Repositories (src/database/repositories) -/

/-- Embeds `TopicRepository.get_by_id`: `SELECT * FROM topics WHERE id = ?`. -/
def TopicRepository.get_by_id (db : DB) (id : String) : Option Topic :=
  db.topics.find? (fun t => t.id == id)

/-- Embeds `ModuleRepository.get_by_id`: `SELECT * FROM modules WHERE id = ?`. -/
def ModuleRepository.get_by_id (db : DB) (id : String) : Option Module :=
  db.modules.find? (fun m => m.id == id)

/-- Embeds `ContentRepository.get_for_topic`: active items of the topic,
`ORDER BY uploaded_at DESC`. -/
def ContentRepository.get_for_topic (db : DB) (topic_id : String) : List ContentItem :=
  List.insertionSort uploadedGE
    (db.content_items.filter (fun c => c.topic_id == topic_id && c.is_active))

/-- Embeds `GenerationRepository.get_by_id`: `SELECT * FROM generations WHERE id = ?`. -/
def GenerationRepository.get_by_id (db : DB) (id : String) : Option Generation :=
  db.generations.find? (fun g => g.id == id)

/-- Embeds `GenerationRepository.get_for_topic`: all generations of a topic,
`ORDER BY created_at DESC`. -/
def GenerationRepository.get_for_topic (db : DB) (topic_id : String) : List Generation :=
  List.insertionSort createdGE
    (db.generations.filter (fun g => g.topic_id == topic_id))

/-- Embeds `GenerationRepository.get_by_stage`: generations of a topic+stage pair,
`ORDER BY version DESC`. -/
def GenerationRepository.get_by_stage (db : DB) (topic_id : String) (stage : Stage) :
    List Generation :=
  List.insertionSort versionGE
    (db.generations.filter (fun g => g.topic_id == topic_id && g.stage == stage))

/-- Embeds `GenerationRepository.get_completed_for_stage`: COMPLETED generations of a
topic+stage pair, `ORDER BY version DESC`. -/
def GenerationRepository.get_completed_for_stage (db : DB) (topic_id : String) (stage : Stage) :
    List Generation :=
  List.insertionSort versionGE
    (db.generations.filter (fun g =>
      g.topic_id == topic_id && g.stage == stage && g.status == GenerationStatus.COMPLETED))

/-- Embeds `GenerationRepository.get_next_version`: `SELECT MAX(version) ... WHERE
topic_id = ? AND stage = ?`, `NULL` read as 0, plus one. -/
def GenerationRepository.get_next_version (db : DB) (topic_id : String) (stage : Stage) : Nat :=
  (((db.generations.filter (fun g => g.topic_id == topic_id && g.stage == stage)).map
      (fun g => g.version)).foldr max 0) + 1

/-- The per-row effect of the SQL `UPDATE generations SET response_content,
notion_page_id, notion_url, drive_backup_id, drive_backup_url, status
WHERE id = ?`: a row whose id matches gets the six updatable columns from
`g`; every other column keeps its stored value, and non-matching rows are
untouched. -/
def updateRow (g : Generation) (row : Generation) : Generation :=
  if row.id == g.id then
    { row with
      response_content := g.response_content
      notion_page_id := g.notion_page_id
      notion_url := g.notion_url
      drive_backup_id := g.drive_backup_id
      drive_backup_url := g.drive_backup_url
      status := g.status }
  else row

/-- Embeds `GenerationRepository.update`: the SQL UPDATE applied to the stored
rows. -/
def GenerationRepository.update (db : DB) (g : Generation) : DB :=
  { db with generations := db.generations.map (updateRow g) }

/-- Embeds `GenerationRepository.create`: the SQL `INSERT INTO generations`. -/
def GenerationRepository.create (db : DB) (g : Generation) : DB :=
  { db with generations := db.generations ++ [g] }

/-! ## Markdown converter (src/integrations/markdown_converter.py)

A block as `validate_blocks` sees it: it reads `block['type']` and, when the
block carries that key, `block[type]['rich_text'][0]['text']['content']`.
Every block the converter emits has exactly this shape with a single
rich-text element, so the nested dictionaries collapse to the block type tag
plus the rich-text payload list. -/

structure RichText where
  content : String
deriving DecidableEq, Repr

structure Block where
  type : String
  rich_text : List RichText
deriving DecidableEq, Repr

/-- Modelled from the spec: `markdown_to_notion_blocks` walks the token stream
of the external `markdown-it` parser, which is not part of the source tree;
§1 of the spec excludes the markdown-to-block conversion as a pure, stateless
text transform.  Modelled as one paragraph block per line; only its purity
matters here — the claims constrain `validate_blocks`, embedded below from
the source. -/
def markdown_to_notion_blocks (markdown_text : String) : List Block :=
  (markdown_text.splitOn "\n").map
    (fun line => { type := "paragraph", rich_text := [{ content := line }] })

/-- Embeds `validate_blocks` (markdown_converter.py:143): for each block whose type
key is present with a rich-text list, if the first rich-text element's content
exceeds 2000 characters it is replaced by its first 2000 characters followed
by `"..."`; every block is appended to the output unchanged otherwise. -/
def validate_blocks (blocks : List Block) : List Block :=
  blocks.map (fun block =>
    match block.rich_text with
    | [] => block
    | rt :: rest =>
      if pyLen rt.content > 2000 then
        { block with rich_text := { content := pyTake rt.content 2000 ++ "..." } :: rest }
      else block)

/-! ## Prompt service (src/services/prompt_service.py) -/

/-- Embeds `PromptService.get_required_files_for_stage`: the fixed cumulative
requirement lists.  The Python `ValueError` branch for an unknown stage is
unreachable for the `Stage` enum. -/
def get_required_files_for_stage : Stage → List ContentType
  | .MK1 => [.LECTURE_PDF]
  | .MK2 => [.LECTURE_PDF, .SOURCE_MATERIAL, .TUTORIAL_PDF]
  | .MK3 => [.LECTURE_PDF, .SOURCE_MATERIAL, .TUTORIAL_PDF, .TRANSCRIPT]

/-- Modelled from the spec: the stage templates live in YAML files
(`config/prompts/mk1_template.yaml` …) that are not in the source tree.
Per the spec the render is a pure function of the cached template and the
variables: topic name, module name, the file names in order, and — for MK3
only — the previous-stage content verbatim (MK1/MK2 templates do not use
`previous_content`). -/
def renderTemplate (stage : Stage) (topic_name : String) (module_name : String)
    (file_names : List String) (previous_content : Option String) : String :=
  stage.value ++ "\n" ++ topic_name ++ "\n" ++ module_name ++ "\n" ++
    String.intercalate "\n" file_names ++
    (match stage, previous_content with
     | Stage.MK3, some prev => "\n" ++ prev
     | _, _ => "")

/-- Embeds `PromptService.build_prompt`: all three templates are loaded into the
cache at startup, so the unknown-stage branch is unreachable; for MK3 a
`previous_content` of `None` raises, and the template variables include
`previous_content` only for MK3. -/
def build_prompt (stage : Stage) (topic_name : String) (module_name : String)
    (file_names : List String) (previous_content : Option String) :
    Except String String :=
  if stage == Stage.MK3 && previous_content.isNone then
    Except.error "MK3 requires previous_content (MK2 output) to be provided"
  else
    Except.ok (renderTemplate stage topic_name module_name file_names
      (if stage == Stage.MK3 then previous_content else none))

/-! ## Generation service (src/services/generation_service.py) -/

/-- Embeds `GenerationService.can_generate_stage`: one "Missing <Type Name>" reason
per required content type absent from the topic's uploaded (active) content,
in requirement order, plus — for MK3 — a distinct reason when no COMPLETED
MK2 generation exists; allowed iff no reason. -/
def can_generate_stage (db : DB) (topic_id : String) (stage : Stage) :
    Bool × List String :=
  let required_files := get_required_files_for_stage stage
  let uploaded_content := ContentRepository.get_for_topic db topic_id
  let uploaded_types := uploaded_content.map (fun item => item.content_type)
  let file_reasons := (required_files.filter
      (fun t => !(uploaded_types.contains t))).map
      (fun t => "Missing " ++ pyTitleOfUnderscored t.value)
  let missing_requirements := file_reasons ++
    (if stage == Stage.MK3 &&
        (GenerationRepository.get_completed_for_stage db topic_id Stage.MK2).isEmpty then
      ["Missing completed MK2 generation"]
    else [])
  (missing_requirements.isEmpty, missing_requirements)

/-- Embeds `GenerationService.start_generation`.  The uuid and timestamp for the new
record become the `new_id`/`now` arguments; a raised `ValueError` becomes
`Except.error` with the Python message. -/
def start_generation (db : DB) (topic_id : String) (stage : Stage)
    (new_id : String) (now : Nat) : Except String (Generation × DB) :=
  let cg := can_generate_stage db topic_id stage
  if !cg.1 then
    Except.error ("Cannot generate " ++ stage.value ++ " for topic. " ++
      "Missing requirements: " ++ String.intercalate ", " cg.2)
  else
    match TopicRepository.get_by_id db topic_id with
    | none => Except.error ("Topic not found: " ++ topic_id)
    | some topic =>
      match ModuleRepository.get_by_id db topic.module_id with
      | none => Except.error ("Module not found: " ++ topic.module_id)
      | some mdl =>
        let content_items := ContentRepository.get_for_topic db topic_id
        let file_names := content_items.map (fun item => item.file_name)
        let prevStep : Except String (Option String × Option String) :=
          if stage == Stage.MK3 then
            match GenerationRepository.get_completed_for_stage db topic_id Stage.MK2 with
            | [] => Except.error "MK3 requires a completed MK2 generation"
            | latest_mk2 :: _ =>
              let previous_content := latest_mk2.response_content
              if optStrFalsy previous_content then
                Except.error
                  "MK2 generation is marked as completed but has no response content"
              else
                Except.ok (previous_content, some latest_mk2.id)
          else
            Except.ok (none, none)
        match prevStep with
        | Except.error e => Except.error e
        | Except.ok (previous_content, previous_generation_id) =>
          match build_prompt stage topic.name mdl.name file_names previous_content with
          | Except.error e => Except.error e
          | Except.ok prompt =>
            let version := GenerationRepository.get_next_version db topic_id stage
            let generation := Generation.create topic_id stage version prompt
              previous_generation_id new_id now
            Except.ok (generation, GenerationRepository.create db generation)

/-- Embeds `GenerationService.update_generation_response`: fetch by id, store the
response, set status COMPLETED, persist. -/
def update_generation_response (db : DB) (generation_id : String)
    (response_content : String) : Except String (Generation × DB) :=
  match GenerationRepository.get_by_id db generation_id with
  | none => Except.error ("Generation not found: " ++ generation_id)
  | some generation =>
    let updated := { generation with
      response_content := some response_content
      status := GenerationStatus.COMPLETED }
    Except.ok (updated, GenerationRepository.update db updated)

/-- Embeds `GenerationService.mark_generation_failed`: fetch by id, set status
FAILED, persist. -/
def mark_generation_failed (db : DB) (generation_id : String) :
    Except String (Generation × DB) :=
  match GenerationRepository.get_by_id db generation_id with
  | none => Except.error ("Generation not found: " ++ generation_id)
  | some generation =>
    let updated := { generation with status := GenerationStatus.FAILED }
    Except.ok (updated, GenerationRepository.update db updated)

/-! ## Output service (src/services/output_service.py)

The Notion and Drive clients are external collaborators; the outcome each of
their calls would have in a given run is an explicit environment
(`RemoteEnv`), in the order `process_response` makes the calls.  The embedding
additionally returns the log of remote calls issued (`RemoteCall`), so that
"makes no remote calls" and "the page is archived" are stateable. -/

/-- Embeds `settings.DRIVE_ROOT_FOLDER` (src/config/settings.py). -/
def DRIVE_ROOT_FOLDER : String := "LawFlow"

structure NotionPage where
  id : String
  url : String
deriving DecidableEq, Repr

structure DriveFile where
  id : String
  url : String
deriving DecidableEq, Repr

/-- Outcomes of the external client calls, in the order `process_response`
issues them; `Except.error` models the call raising. The rollback outcomes
(`archive_page`, `delete_file`) are included so that their being swallowed is
provable. -/
structure RemoteEnv where
  create_page : Except String NotionPage
  root_folder : Except String String
  module_folder : Except String String
  topic_folder : Except String String
  upload_file : Except String DriveFile
  archive_page : Except String Unit
  delete_file : Except String Unit
deriving Repr

/-- A remote call issued to one of the external clients. -/
inductive RemoteCall where
  | createPage (database_id : String) (title : String) (blocks : List Block)
  | getOrCreateFolder (name : String) (parent_id : Option String)
  | uploadFile (file_name : String) (folder_id : String)
  | archivePage (page_id : String)
  | trashFile (file_id : String)
deriving DecidableEq, Repr

/-- Embeds `OutputService._rollback`: archive the Notion page if one was created,
trash the Drive file if one was uploaded; each attempt's own failure is
caught and only logged, so the attempts themselves are what is observable. -/
def rollback_calls (notion_page_id : Option String) (drive_file_id : Option String) :
    List RemoteCall :=
  (match notion_page_id with
   | some pid => [RemoteCall.archivePage pid]
   | none => []) ++
  (match drive_file_id with
   | some fid => [RemoteCall.trashFile fid]
   | none => [])

/-- Result of a `process_response` run: the returned dictionary or the raised
exception message, the database afterwards, and the remote calls issued. -/
structure ProcessOutcome where
  result : Except String (String × String × String)
  db : DB
  calls : List RemoteCall
deriving Repr

/-- The `except` block of `process_response`: run `_rollback`, roll back the
uncommitted local changes (the in-model database write is only applied on
commit, so nothing is undone here), mark the generation FAILED and commit
that single-field change (its own failure would be swallowed; the in-model
local write always succeeds), and re-raise the wrapping error naming the
generation id with the original message. -/
def fail_outcome (db : DB) (generation : Generation) (generation_id : String)
    (notion_page_id : Option String) (drive_file_id : Option String)
    (calls : List RemoteCall) (e : String) : ProcessOutcome :=
  { result := Except.error
      ("Failed to process response for generation " ++ generation_id ++ ": " ++ e)
    db := GenerationRepository.update db
      { generation with status := GenerationStatus.FAILED }
    calls := calls ++ rollback_calls notion_page_id drive_file_id }

/-- Embeds `OutputService.process_response`: the two-system publish transaction.
The returned triple on success is `(notion_url, drive_url, generation_id)`. -/
def process_response (db : DB) (env : RemoteEnv) (generation_id : String)
    (response_content : String) (notion_database_id : String) : ProcessOutcome :=
  match GenerationRepository.get_by_id db generation_id with
  | none =>
    { result := Except.error ("Generation not found: " ++ generation_id)
      db := db, calls := [] }
  | some generation =>
    if generation.status == GenerationStatus.COMPLETED then
      { result := Except.error ("Generation already completed: " ++ generation_id)
        db := db, calls := [] }
    else
      match TopicRepository.get_by_id db generation.topic_id with
      | none =>
        { result := Except.error ("Topic not found: " ++ generation.topic_id)
          db := db, calls := [] }
      | some topic =>
        match ModuleRepository.get_by_id db topic.module_id with
        | none =>
          { result := Except.error ("Module not found: " ++ topic.module_id)
            db := db, calls := [] }
        | some mdl =>
          let validated_blocks :=
            validate_blocks (markdown_to_notion_blocks response_content)
          let page_title :=
            mdl.name ++ " - " ++ topic.name ++ " - " ++ generation.stage.value
          let c1 := [RemoteCall.createPage notion_database_id page_title validated_blocks]
          match env.create_page with
          | Except.error e =>
            fail_outcome db generation generation_id none none c1 e
          | Except.ok notion_result =>
            let drive_file_name :=
              generation.stage.value ++ "_v" ++ toString generation.version ++ ".md"
            let c2 := c1 ++ [RemoteCall.getOrCreateFolder DRIVE_ROOT_FOLDER none]
            match env.root_folder with
            | Except.error e =>
              fail_outcome db generation generation_id (some notion_result.id) none c2 e
            | Except.ok root_id =>
              let c3 := c2 ++ [RemoteCall.getOrCreateFolder mdl.name (some root_id)]
              match env.module_folder with
              | Except.error e =>
                fail_outcome db generation generation_id (some notion_result.id) none c3 e
              | Except.ok module_folder_id =>
                let c4 := c3 ++
                  [RemoteCall.getOrCreateFolder topic.name (some module_folder_id)]
                match env.topic_folder with
                | Except.error e =>
                  fail_outcome db generation generation_id (some notion_result.id) none c4 e
                | Except.ok topic_folder_id =>
                  let c5 := c4 ++ [RemoteCall.uploadFile drive_file_name topic_folder_id]
                  match env.upload_file with
                  | Except.error e =>
                    fail_outcome db generation generation_id (some notion_result.id) none c5 e
                  | Except.ok drive_result =>
                    let updated := { generation with
                      response_content := some response_content
                      notion_page_id := some notion_result.id
                      notion_url := some notion_result.url
                      drive_backup_id := some drive_result.id
                      drive_backup_url := some drive_result.url
                      status := GenerationStatus.COMPLETED }
                    { result := Except.ok (notion_result.url, drive_result.url, generation_id)
                      db := GenerationRepository.update db updated
                      calls := c5 }

/-! ## Spec-side definitions

Definitions written from the spec's wording, used on the specification side
of refinement statements; the definitions above them are the embedding of
the source. -/

/-- Spec-side (C3): the topic has at least one active content item of the
given type. -/
def specHasActiveType (db : DB) (topic_id : String) (ty : ContentType) : Bool :=
  db.content_items.any (fun c =>
    c.topic_id == topic_id && c.is_active && c.content_type == ty)

/-- Spec-side (C3): at least one COMPLETED MK2 generation exists for the
topic. -/
def specHasCompletedMK2 (db : DB) (topic_id : String) : Bool :=
  db.generations.any (fun g =>
    g.topic_id == topic_id && g.stage == Stage.MK2 &&
      g.status == GenerationStatus.COMPLETED)

/-- Spec-side (C5): the status transitions the claim lists as the only
possible ones — PENDING→COMPLETED, PENDING→FAILED, COMPLETED→FAILED. -/
def claimedStatusChange (before after : GenerationStatus) : Bool :=
  (before == GenerationStatus.PENDING && after == GenerationStatus.COMPLETED) ||
  (before == GenerationStatus.PENDING && after == GenerationStatus.FAILED) ||
  (before == GenerationStatus.COMPLETED && after == GenerationStatus.FAILED)

/-- Spec-side (C5, amended): the transitions the code can actually perform —
the claimed ones plus FAILED→COMPLETED (the retry path); still nothing
transitions into PENDING. -/
def amendedStatusChange (before after : GenerationStatus) : Bool :=
  claimedStatusChange before after ||
  (before == GenerationStatus.FAILED && after == GenerationStatus.COMPLETED)

/-- Spec-side (C5): every stored generation either keeps its status or makes
an allowed transition between the two database states. -/
def statusChangesAllowed (db db' : DB) : Prop :=
  List.Forall₂ (fun row row' =>
      row'.status = row.status ∨ amendedStatusChange row.status row'.status = true)
    db.generations db'.generations

/-- Spec-side (C10): between two database states, every generation row keeps
its identity columns — id, topic_id, stage, version, prompt_used,
previous_generation_id, created_at. -/
def recordFramePreserved (db db' : DB) : Prop :=
  List.Forall₂ (fun row row' =>
      row'.id = row.id ∧ row'.topic_id = row.topic_id ∧ row'.stage = row.stage ∧
      row'.version = row.version ∧ row'.prompt_used = row.prompt_used ∧
      row'.previous_generation_id = row.previous_generation_id ∧
      row'.created_at = row.created_at)
    db.generations db'.generations

/-! ## Concrete fixtures

A small concrete world used by witnesses and counterexamples: one module,
two topics — `t1` fully equipped (all four content types, a COMPLETED MK2
generation, plus MK1 generations in the three statuses), `t2` with only a
lecture upload and two MK1 generations. -/

def wModule : Module :=
  { id := "m1", name := "Land Law", claude_project_name := none
    notion_database_id := some "ndb1", created_at := 0, updated_at := 0 }

def wTopic1 : Topic :=
  { id := "t1", module_id := "m1", name := "Easements", created_at := 0, updated_at := 0 }

def wTopic2 : Topic :=
  { id := "t2", module_id := "m1", name := "Leases", created_at := 0, updated_at := 0 }

def wContent : List ContentItem :=
  [ { id := "c1", topic_id := "t1", content_type := ContentType.LECTURE_PDF
      file_name := "lec.pdf", drive_file_id := none, drive_url := none
      uploaded_at := 4, file_size_bytes := 10, is_active := true }
  , { id := "c2", topic_id := "t1", content_type := ContentType.SOURCE_MATERIAL
      file_name := "src.pdf", drive_file_id := none, drive_url := none
      uploaded_at := 3, file_size_bytes := 10, is_active := true }
  , { id := "c3", topic_id := "t1", content_type := ContentType.TUTORIAL_PDF
      file_name := "tut.pdf", drive_file_id := none, drive_url := none
      uploaded_at := 2, file_size_bytes := 10, is_active := true }
  , { id := "c4", topic_id := "t1", content_type := ContentType.TRANSCRIPT
      file_name := "tr.txt", drive_file_id := none, drive_url := none
      uploaded_at := 1, file_size_bytes := 10, is_active := true }
  , { id := "c5", topic_id := "t2", content_type := ContentType.LECTURE_PDF
      file_name := "lec2.pdf", drive_file_id := none, drive_url := none
      uploaded_at := 5, file_size_bytes := 10, is_active := true } ]

def wGenMK2 : Generation :=
  { id := "g-mk2", topic_id := "t1", stage := Stage.MK2, version := 1
    prompt_used := "p2", response_content := some "MK2 output"
    notion_page_id := none, notion_url := none, drive_backup_id := none
    drive_backup_url := none, previous_generation_id := none
    created_at := 10, status := GenerationStatus.COMPLETED }

def wGenPending : Generation :=
  { id := "g-pend", topic_id := "t1", stage := Stage.MK1, version := 1
    prompt_used := "p1", response_content := none
    notion_page_id := none, notion_url := none, drive_backup_id := none
    drive_backup_url := none, previous_generation_id := none
    created_at := 11, status := GenerationStatus.PENDING }

def wGenDone : Generation :=
  { id := "g-done", topic_id := "t1", stage := Stage.MK1, version := 2
    prompt_used := "p1b", response_content := some "r"
    notion_page_id := none, notion_url := none, drive_backup_id := none
    drive_backup_url := none, previous_generation_id := none
    created_at := 12, status := GenerationStatus.COMPLETED }

def wGenFailed : Generation :=
  { id := "g-fail", topic_id := "t1", stage := Stage.MK1, version := 3
    prompt_used := "p1c", response_content := none
    notion_page_id := none, notion_url := none, drive_backup_id := none
    drive_backup_url := none, previous_generation_id := none
    created_at := 13, status := GenerationStatus.FAILED }

def wGenA : Generation :=
  { id := "g-a", topic_id := "t2", stage := Stage.MK1, version := 1
    prompt_used := "pa", response_content := none
    notion_page_id := none, notion_url := none, drive_backup_id := none
    drive_backup_url := none, previous_generation_id := none
    created_at := 20, status := GenerationStatus.PENDING }

def wGenB : Generation :=
  { id := "g-b", topic_id := "t2", stage := Stage.MK1, version := 2
    prompt_used := "pb", response_content := some "x"
    notion_page_id := none, notion_url := none, drive_backup_id := none
    drive_backup_url := none, previous_generation_id := none
    created_at := 21, status := GenerationStatus.COMPLETED }

def wDB : DB :=
  { modules := [wModule]
    topics := [wTopic1, wTopic2]
    content_items := wContent
    generations := [wGenMK2, wGenPending, wGenDone, wGenFailed, wGenA, wGenB] }

/-- Remote environment in which every client call succeeds. -/
def wEnvOk : RemoteEnv :=
  { create_page := Except.ok { id := "np1", url := "nurl1" }
    root_folder := Except.ok "f-root"
    module_folder := Except.ok "f-mod"
    topic_folder := Except.ok "f-top"
    upload_file := Except.ok { id := "df1", url := "durl1" }
    archive_page := Except.ok ()
    delete_file := Except.ok () }

/-- Remote environment in which the Drive upload raises after the Notion
page was created, and the compensating archive call itself also raises. -/
def wEnvUploadFail : RemoteEnv :=
  { create_page := Except.ok { id := "np1", url := "nurl1" }
    root_folder := Except.ok "f-root"
    module_folder := Except.ok "f-mod"
    topic_folder := Except.ok "f-top"
    upload_file := Except.error "drive upload failed"
    archive_page := Except.error "archive failed too"
    delete_file := Except.ok () }

/-- Block whose first rich-text content is 2001 characters long — the
failing input for the block-length cap. -/
def wLongBlock : Block :=
  { type := "paragraph"
    rich_text := [{ content := String.mk (List.replicate 2001 'a') }] }

/-! ## Helper lemmas -/

lemma updateRow_id (g row : Generation) : (updateRow g row).id = row.id := by
  unfold updateRow; split <;> rfl

lemma updateRow_of_beq (g row : Generation) (h : (row.id == g.id) = true) :
    updateRow g row =
      { row with
        response_content := g.response_content
        notion_page_id := g.notion_page_id
        notion_url := g.notion_url
        drive_backup_id := g.drive_backup_id
        drive_backup_url := g.drive_backup_url
        status := g.status } := by
  unfold updateRow; rw [h]; rfl

/-- Embeds `find?` by id over the updated rows returns the updated first match. -/
lemma find?_map_updateRow (l : List Generation) (gid : String) (g g' : Generation)
    (hfind : l.find? (fun x => x.id == gid) = some g) (hid : g'.id = g.id) :
    (l.map (updateRow g')).find? (fun x => x.id == gid) =
      some { g with
        response_content := g'.response_content
        notion_page_id := g'.notion_page_id
        notion_url := g'.notion_url
        drive_backup_id := g'.drive_backup_id
        drive_backup_url := g'.drive_backup_url
        status := g'.status } := by
  induction l with
  | nil => simp at hfind
  | cons x xs ih =>
    by_cases hx : (x.id == gid) = true
    · rw [@List.find?_cons_of_pos _ (fun y => y.id == gid) x xs hx] at hfind
      injection hfind with hfind
      subst hfind
      have hpos : ((updateRow g' x).id == gid) = true := by
        rw [updateRow_id]; exact hx
      have hb : (x.id == g'.id) = true := by rw [hid]; simp
      rw [List.map_cons,
        @List.find?_cons_of_pos _ (fun y => y.id == gid) (updateRow g' x)
          (List.map (updateRow g') xs) hpos,
        updateRow_of_beq _ _ hb]
    · have hneg : ¬((updateRow g' x).id == gid) = true := by
        rw [updateRow_id]; exact hx
      rw [@List.find?_cons_of_neg _ (fun y => y.id == gid) x xs hx] at hfind
      rw [List.map_cons,
        @List.find?_cons_of_neg _ (fun y => y.id == gid) (updateRow g' x)
          (List.map (updateRow g') xs) hneg]
      exact ih hfind

/-- Embeds `get_by_id` after an UPDATE of the matching id. -/
lemma get_by_id_update (db : DB) (gid : String) (g g' : Generation)
    (hfind : GenerationRepository.get_by_id db gid = some g) (hid : g'.id = g.id) :
    GenerationRepository.get_by_id (GenerationRepository.update db g') gid =
      some { g with
        response_content := g'.response_content
        notion_page_id := g'.notion_page_id
        notion_url := g'.notion_url
        drive_backup_id := g'.drive_backup_id
        drive_backup_url := g'.drive_backup_url
        status := g'.status } := by
  unfold GenerationRepository.get_by_id GenerationRepository.update
  exact find?_map_updateRow db.generations gid g g' hfind hid

lemma le_foldr_max {l : List Nat} {a : Nat} (ha : a ∈ l) : a ≤ l.foldr max 0 := by
  induction l with
  | nil => cases ha
  | cons x xs ih =>
    rcases List.mem_cons.mp ha with h | h
    · subst h; exact le_max_left _ _
    · exact le_trans (ih h) (le_max_right _ _)

lemma foldr_max_mem (l : List Nat) (hne : l ≠ []) : l.foldr max 0 ∈ l := by
  induction l with
  | nil => exact absurd rfl hne
  | cons x xs ih =>
    rcases eq_or_ne xs [] with h | h
    · subst h; simp
    · have hmem := ih h
      simp only [List.foldr_cons]
      rcases le_total x (xs.foldr max 0) with hle | hle
      · rw [max_eq_right hle]; exact List.mem_cons_of_mem _ hmem
      · rw [max_eq_left hle]; exact List.mem_cons_self _ _

/-- A list relates to its image under `f` pointwise. -/
lemma forall₂_map_self {α : Type} {R : α → α → Prop} {f : α → α} {l : List α}
    (h : ∀ x ∈ l, R x (f x)) : List.Forall₂ R l (l.map f) :=
  List.forall₂_map_right_iff.mpr (List.forall₂_same.mpr h)

lemma statusChangesAllowed_refl (db : DB) : statusChangesAllowed db db :=
  List.forall₂_same.mpr (fun _ _ => Or.inl rfl)

/-- An UPDATE that writes a non-PENDING status only performs allowed
transitions. -/
lemma statusChangesAllowed_update (db : DB) (g : Generation)
    (hg : g.status ≠ GenerationStatus.PENDING) :
    statusChangesAllowed db (GenerationRepository.update db g) := by
  apply forall₂_map_self
  intro row _
  unfold updateRow
  split
  · cases hrow : row.status <;> cases hgs : g.status <;>
      first
        | exact Or.inl rfl
        | exact absurd hgs hg
        | exact Or.inr (by simp [amendedStatusChange, claimedStatusChange])
  · exact Or.inl rfl

lemma recordFramePreserved_refl (db : DB) : recordFramePreserved db db :=
  List.forall₂_same.mpr (fun _ _ => ⟨rfl, rfl, rfl, rfl, rfl, rfl, rfl⟩)

/-- An UPDATE never touches the identity columns of any row. -/
lemma recordFramePreserved_update (db : DB) (g : Generation) :
    recordFramePreserved db (GenerationRepository.update db g) := by
  apply forall₂_map_self
  intro row _
  unfold updateRow
  split
  · exact ⟨rfl, rfl, rfl, rfl, rfl, rfl, rfl⟩
  · exact ⟨rfl, rfl, rfl, rfl, rfl, rfl, rfl⟩

/-- Shape of the database `process_response` leaves behind: untouched, or a
single UPDATE writing status COMPLETED or FAILED. -/
lemma process_response_db_shape (db : DB) (env : RemoteEnv) (gid resp ndb : String) :
    (process_response db env gid resp ndb).db = db ∨
    ∃ g : Generation,
      (process_response db env gid resp ndb).db = GenerationRepository.update db g ∧
        g.status ≠ GenerationStatus.PENDING := by
  unfold process_response
  split
  · exact Or.inl rfl
  next generation _ =>
    split
    · exact Or.inl rfl
    · split
      · exact Or.inl rfl
      · split
        · exact Or.inl rfl
        · split
          · exact Or.inr ⟨_, rfl, by simp⟩
          · split
            · exact Or.inr ⟨_, rfl, by simp⟩
            · split
              · exact Or.inr ⟨_, rfl, by simp⟩
              · split
                · exact Or.inr ⟨_, rfl, by simp⟩
                · split
                  · exact Or.inr ⟨_, rfl, by simp⟩
                  · exact Or.inr ⟨_, rfl, by simp⟩

lemma data_append (s t : String) : (s ++ t).data = s.data ++ t.data := by
  cases s; cases t; rfl

lemma ellipsis_data : "...".data = ['.', '.', '.'] := rfl

/-- Length of a sanitized over-long content: the 2000-character cut plus the
three ellipsis characters. -/
lemma pyLen_truncated (c : String) :
    pyLen (pyTake c 2000 ++ "...") = min 2000 (pyLen c) + 3 := by
  show ((pyTake c 2000 ++ "...").data).length = _
  rw [data_append]
  show ((c.data.take 2000) ++ "...".data).length = _
  rw [List.length_append, List.length_take, ellipsis_data]
  rfl

/-- Action of `validate_blocks` on a single block whose first rich-text
content exceeds the cap. -/
lemma validate_blocks_singleton_over (ty : String) (c : String) (rest : List RichText)
    (h : pyLen c > 2000) :
    validate_blocks [{ type := ty, rich_text := { content := c } :: rest }] =
      [{ type := ty, rich_text := { content := pyTake c 2000 ++ "..." } :: rest }] := by
  show (if pyLen c > 2000 then
      ({ type := ty, rich_text := { content := pyTake c 2000 ++ "..." } :: rest } : Block)
    else { type := ty, rich_text := { content := c } :: rest }) :: [] = _
  rw [if_pos h]

lemma perm_isEmpty {α : Type} {l₁ l₂ : List α} (h : l₁.Perm l₂) :
    l₁.isEmpty = l₂.isEmpty := by
  cases l₁ with
  | nil =>
    have h2 : l₂ = [] := h.symm.eq_nil
    rw [h2]
  | cons x xs =>
    cases l₂ with
    | nil => exact absurd h.eq_nil (by simp)
    | cons y ys => rfl

lemma filter_isEmpty_eq_not_any {α : Type} (p : α → Bool) (l : List α) :
    (l.filter p).isEmpty = !(l.any p) := by
  induction l with
  | nil => rfl
  | cons x xs ih =>
    by_cases hx : p x = true
    · rw [List.filter_cons_of_pos hx, List.any_cons, hx]
      simp
    · have hx' : p x = false := by
        cases hpx : p x
        · rfl
        · exact absurd hpx hx
      rw [List.filter_cons_of_neg hx, List.any_cons, ih, hx']
      simp

/-- Membership in the uploaded content types seen by the stage gate agrees
with the spec-side active-content check. -/
lemma uploaded_contains (db : DB) (tid : String) (ty : ContentType) :
    ((ContentRepository.get_for_topic db tid).map
      (fun item => item.content_type)).contains ty =
      specHasActiveType db tid ty := by
  have hperm := List.perm_insertionSort uploadedGE
    (db.content_items.filter (fun c => c.topic_id == tid && c.is_active))
  rw [Bool.eq_iff_iff]
  unfold ContentRepository.get_for_topic specHasActiveType
  simp only [List.contains_eq_any_beq, List.any_eq_true, List.mem_map,
    hperm.mem_iff, List.mem_filter, Bool.and_eq_true, beq_iff_eq]
  constructor
  · rintro ⟨t, ⟨c, ⟨hc, h1, h2⟩, rfl⟩, h3⟩
    exact ⟨c, hc, ⟨h1, h2⟩, h3.symm⟩
  · rintro ⟨c, hc, ⟨h1, h2⟩, h3⟩
    exact ⟨c.content_type, ⟨c, ⟨hc, h1, h2⟩, rfl⟩, h3.symm⟩

/-- Emptiness of the COMPLETED-MK2 query agrees with the spec-side check. -/
lemma completed_isEmpty (db : DB) (tid : String) :
    (GenerationRepository.get_completed_for_stage db tid Stage.MK2).isEmpty =
      !specHasCompletedMK2 db tid := by
  unfold GenerationRepository.get_completed_for_stage specHasCompletedMK2
  rw [perm_isEmpty (List.perm_insertionSort versionGE _),
    filter_isEmpty_eq_not_any]

/-! ## Claim theorems -/

/-- C2: for every generation whose status is already COMPLETED,
`process_response` raises the "already completed" error before making any
document-store or file-store call, and leaves the database — in particular
the generation record — unchanged. -/
theorem process_response_already_completed (db : DB) (env : RemoteEnv)
    (gid resp ndb : String) (g : Generation)
    (hfind : GenerationRepository.get_by_id db gid = some g)
    (hc : g.status = GenerationStatus.COMPLETED) :
    process_response db env gid resp ndb =
      { result := Except.error ("Generation already completed: " ++ gid)
        db := db, calls := [] } := by
  unfold process_response
  rw [hfind]
  simp [hc]

/-- Witness for C2: `process_response` on the COMPLETED fixture generation
`g-done` raises the "already completed" error with no remote calls and no
database change. -/
theorem process_response_already_completed_witness :
    process_response wDB wEnvOk "g-done" "resp" "ndb1" =
      { result := Except.error ("Generation already completed: " ++ "g-done")
        db := wDB, calls := [] } :=
  process_response_already_completed wDB wEnvOk "g-done" "resp" "ndb1" wGenDone rfl rfl

/-- C8 counterexample: `build_prompt` at stage MK3 with `previous_content`
present but EMPTY succeeds (renders), contradicting the claim that an empty
previous content fails with a validation error — the source only rejects
`None`. -/
theorem build_prompt_empty_previous_accepted :
    build_prompt Stage.MK3 "Easements" "Land Law" ["lec.pdf"] (some "") =
      Except.ok (renderTemplate Stage.MK3 "Easements" "Land Law" ["lec.pdf"] (some "")) :=
  rfl

/-- C8 (amended): for stage MK3, `build_prompt` fails with the validation
error exactly when `previous_content` is absent (`None`); any supplied
string — including the empty string — is accepted and rendering proceeds
with it. -/
theorem build_prompt_mk3_requires_previous (tn mn : String) (files : List String)
    (prev : Option String) :
    (prev = none → build_prompt Stage.MK3 tn mn files prev =
      Except.error "MK3 requires previous_content (MK2 output) to be provided")
  ∧ (∀ s, prev = some s → build_prompt Stage.MK3 tn mn files prev =
      Except.ok (renderTemplate Stage.MK3 tn mn files prev)) := by
  constructor
  · intro h; subst h; rfl
  · intro s h; subst h; rfl

/-- Witness for C8 (amended): with `previous_content = None` the MK3 prompt
build raises the validation error. -/
theorem build_prompt_mk3_requires_previous_witness :
    build_prompt Stage.MK3 "Trusts" "Equity" [] none =
      Except.error "MK3 requires previous_content (MK2 output) to be provided" :=
  (build_prompt_mk3_requires_previous "Trusts" "Equity" [] none).1 rfl

/-- C9 (code bug): `validate_blocks` on a block whose text content is 2001
characters produces content of 2003 characters — the first 2000 characters
plus the three-character ellipsis marker — so the sanitized output EXCEEDS
the documented 2000-character cap instead of being capped to it. -/
theorem validate_blocks_exceeds_cap :
    ((validate_blocks [wLongBlock]).map
        (fun b => b.rich_text.map (fun rt => pyLen rt.content)) = [[2003]])
  ∧ ([wLongBlock].map
        (fun b => b.rich_text.map (fun rt => pyLen rt.content)) = [[2001]]) := by
  have hlen : pyLen (String.mk (List.replicate 2001 'a')) = 2001 := by
    show (List.replicate 2001 'a').length = 2001
    rw [List.length_replicate]
  constructor
  · rw [show [wLongBlock] =
        [{ type := "paragraph",
           rich_text := [{ content := String.mk (List.replicate 2001 'a') }] }] from rfl,
      validate_blocks_singleton_over _ _ _ (by rw [hlen]; decide)]
    show [[pyLen (pyTake (String.mk (List.replicate 2001 'a')) 2000 ++ "...")]] = [[2003]]
    rw [pyLen_truncated, hlen]
    decide
  · show [[pyLen (String.mk (List.replicate 2001 'a'))]] = [[2001]]
    rw [hlen]

/-- C5 counterexample: `update_generation_response` on the FAILED fixture
generation `g-fail` performs the status transition FAILED→COMPLETED, which
is outside the claim's list of the only possible transitions. -/
theorem status_transition_counterexample :
    ((GenerationRepository.get_by_id wDB "g-fail").map Generation.status =
      some GenerationStatus.FAILED)
  ∧ ((update_generation_response wDB "g-fail" "late response").toOption.map
      (fun p => p.1.status) = some GenerationStatus.COMPLETED)
  ∧ claimedStatusChange GenerationStatus.FAILED GenerationStatus.COMPLETED = false :=
  ⟨rfl, rfl, rfl⟩

/-- C5 (amended): across `update_generation_response`,
`mark_generation_failed` and `process_response`, every stored generation
either keeps its status or transitions PENDING→COMPLETED, PENDING→FAILED,
COMPLETED→FAILED, or FAILED→COMPLETED (the retry path the claim omits);
no operation ever transitions a generation into PENDING, in particular
never COMPLETED→PENDING. -/
theorem status_transitions_allowed (db : DB) (env : RemoteEnv)
    (gid resp ndb : String) :
    (∀ g' db₂, update_generation_response db gid resp = Except.ok (g', db₂) →
      statusChangesAllowed db db₂)
  ∧ (∀ g' db₂, mark_generation_failed db gid = Except.ok (g', db₂) →
      statusChangesAllowed db db₂)
  ∧ statusChangesAllowed db (process_response db env gid resp ndb).db := by
  refine ⟨?_, ?_, ?_⟩
  · intro g' db₂ h
    unfold update_generation_response at h
    cases hf : GenerationRepository.get_by_id db gid with
    | none => rw [hf] at h; exact absurd h (by simp)
    | some g =>
      rw [hf] at h
      simp only [Except.ok.injEq, Prod.mk.injEq] at h
      obtain ⟨-, h2⟩ := h
      rw [← h2]
      exact statusChangesAllowed_update db _ (by simp)
  · intro g' db₂ h
    unfold mark_generation_failed at h
    cases hf : GenerationRepository.get_by_id db gid with
    | none => rw [hf] at h; exact absurd h (by simp)
    | some g =>
      rw [hf] at h
      simp only [Except.ok.injEq, Prod.mk.injEq] at h
      obtain ⟨-, h2⟩ := h
      rw [← h2]
      exact statusChangesAllowed_update db _ (by simp)
  · rcases process_response_db_shape db env gid resp ndb with h | ⟨g, h, hg⟩
    · rw [h]; exact statusChangesAllowed_refl db
    · rw [h]; exact statusChangesAllowed_update db g hg

/-- Witness for C5 (amended): the allowed-transition relation holds between
the fixture database and the database after a successful publish of the
pending generation, and after re-completing the failed one. -/
theorem status_transitions_allowed_witness :
    statusChangesAllowed wDB (process_response wDB wEnvOk "g-pend" "resp" "ndb1").db
  ∧ statusChangesAllowed wDB (GenerationRepository.update wDB
      { wGenFailed with
          response_content := some "late response",
          status := GenerationStatus.COMPLETED }) :=
  ⟨(status_transitions_allowed wDB wEnvOk "g-pend" "resp" "ndb1").2.2,
   (status_transitions_allowed wDB wEnvOk "g-fail" "late response" "ndb1").1
     { wGenFailed with
         response_content := some "late response",
         status := GenerationStatus.COMPLETED }
     (GenerationRepository.update wDB
       { wGenFailed with
           response_content := some "late response",
           status := GenerationStatus.COMPLETED })
     rfl⟩

/-- C10: every persistence update of a Generation record — the repository
UPDATE itself and its uses by `update_generation_response`,
`mark_generation_failed` and `process_response` — keeps every row's id,
topic_id, stage, version, prompt_used, previous_generation_id and created_at
unchanged; only the response/document/file references and status columns can
change after creation. -/
theorem generation_update_frame (db : DB) (g : Generation) (env : RemoteEnv)
    (gid resp ndb : String) :
    recordFramePreserved db (GenerationRepository.update db g)
  ∧ (∀ g' db₂, update_generation_response db gid resp = Except.ok (g', db₂) →
      recordFramePreserved db db₂)
  ∧ (∀ g' db₂, mark_generation_failed db gid = Except.ok (g', db₂) →
      recordFramePreserved db db₂)
  ∧ recordFramePreserved db (process_response db env gid resp ndb).db := by
  refine ⟨recordFramePreserved_update db g, ?_, ?_, ?_⟩
  · intro g' db₂ h
    unfold update_generation_response at h
    cases hf : GenerationRepository.get_by_id db gid with
    | none => rw [hf] at h; exact absurd h (by simp)
    | some g0 =>
      rw [hf] at h
      simp only [Except.ok.injEq, Prod.mk.injEq] at h
      obtain ⟨-, h2⟩ := h
      rw [← h2]
      exact recordFramePreserved_update db _
  · intro g' db₂ h
    unfold mark_generation_failed at h
    cases hf : GenerationRepository.get_by_id db gid with
    | none => rw [hf] at h; exact absurd h (by simp)
    | some g0 =>
      rw [hf] at h
      simp only [Except.ok.injEq, Prod.mk.injEq] at h
      obtain ⟨-, h2⟩ := h
      rw [← h2]
      exact recordFramePreserved_update db _
  · rcases process_response_db_shape db env gid resp ndb with h | ⟨g0, h, -⟩
    · rw [h]; exact recordFramePreserved_refl db
    · rw [h]; exact recordFramePreserved_update db g0

/-- Witness for C10: the frame relation holds concretely between the fixture
database and its state after publishing the pending generation, and after
recording a response on it. -/
theorem generation_update_frame_witness :
    recordFramePreserved wDB (process_response wDB wEnvOk "g-pend" "resp" "ndb1").db
  ∧ recordFramePreserved wDB (GenerationRepository.update wDB
      { wGenPending with
          response_content := some "resp",
          status := GenerationStatus.COMPLETED }) :=
  ⟨(generation_update_frame wDB wGenPending wEnvOk "g-pend" "resp" "ndb1").2.2.2,
   (generation_update_frame wDB wGenPending wEnvOk "g-pend" "resp" "ndb1").2.1
     { wGenPending with
         response_content := some "resp",
         status := GenerationStatus.COMPLETED }
     (GenerationRepository.update wDB
       { wGenPending with
           response_content := some "resp",
           status := GenerationStatus.COMPLETED })
     rfl⟩

/-- C1: when the document-store page creation succeeds and the file-store
upload then throws, `process_response` archives the created page (and
trashes nothing, since no file was uploaded), the stored generation's status
becomes FAILED with `drive_backup_id` unchanged (so still unset), the
rollback outcomes are swallowed — changing them changes nothing observable —
and the raised error names the generation id and carries the original
failure's message. -/
theorem process_response_upload_failure_rollback (db : DB) (env : RemoteEnv)
    (gid resp ndb err : String) (g : Generation) (topic : Topic) (mdl : Module)
    (np : NotionPage) (rid mfid tfid : String)
    (hfind : GenerationRepository.get_by_id db gid = some g)
    (hnc : g.status ≠ GenerationStatus.COMPLETED)
    (htopic : TopicRepository.get_by_id db g.topic_id = some topic)
    (hmod : ModuleRepository.get_by_id db topic.module_id = some mdl)
    (hcp : env.create_page = Except.ok np)
    (hroot : env.root_folder = Except.ok rid)
    (hmf : env.module_folder = Except.ok mfid)
    (htf : env.topic_folder = Except.ok tfid)
    (hup : env.upload_file = Except.error err) :
    ((process_response db env gid resp ndb).result =
      Except.error ("Failed to process response for generation " ++ gid ++ ": " ++ err))
  ∧ RemoteCall.archivePage np.id ∈ (process_response db env gid resp ndb).calls
  ∧ (GenerationRepository.get_by_id (process_response db env gid resp ndb).db gid =
      some { g with status := GenerationStatus.FAILED })
  ∧ ((GenerationRepository.get_by_id (process_response db env gid resp ndb).db gid).map
        Generation.drive_backup_id = some g.drive_backup_id)
  ∧ (∀ f, RemoteCall.trashFile f ∉ (process_response db env gid resp ndb).calls)
  ∧ (∀ a d, process_response db
        { env with archive_page := a, delete_file := d } gid resp ndb =
      process_response db env gid resp ndb) := by
  have hne : (g.status == GenerationStatus.COMPLETED) = false := by
    cases hst : g.status with
    | COMPLETED => exact absurd hst hnc
    | PENDING => rfl
    | FAILED => rfl
  have hdb : GenerationRepository.get_by_id (process_response db env gid resp ndb).db gid =
      some { g with status := GenerationStatus.FAILED } := by
    have hkey := get_by_id_update db gid g { g with status := GenerationStatus.FAILED } hfind rfl
    unfold process_response
    rw [hfind]
    simp only [hne, Bool.false_eq_true, if_neg, htopic, hmod, hcp, hroot, hmf, htf, hup]
    simpa [fail_outcome] using hkey
  refine ⟨?_, ?_, hdb, ?_, ?_, ?_⟩
  · unfold process_response
    rw [hfind]
    simp [hne, htopic, hmod, hcp, hroot, hmf, htf, hup, fail_outcome]
  · unfold process_response
    rw [hfind]
    simp [hne, htopic, hmod, hcp, hroot, hmf, htf, hup, fail_outcome, rollback_calls]
  · rw [hdb]; rfl
  · intro f
    unfold process_response
    rw [hfind]
    simp [hne, htopic, hmod, hcp, hroot, hmf, htf, hup, fail_outcome, rollback_calls]
  · intro a d
    cases env
    rfl

/-- Witness for C1: with the fixture pending generation, a failing Drive
upload and an archive call that itself fails, `process_response` still
raises the wrapping error and logs the archive attempt for page `np1`. -/
theorem process_response_upload_failure_rollback_witness :
    ((process_response wDB wEnvUploadFail "g-pend" "resp" "ndb1").result =
      Except.error ("Failed to process response for generation " ++ "g-pend" ++ ": " ++
        "drive upload failed"))
  ∧ RemoteCall.archivePage "np1" ∈
      (process_response wDB wEnvUploadFail "g-pend" "resp" "ndb1").calls :=
  ⟨(process_response_upload_failure_rollback wDB wEnvUploadFail "g-pend" "resp" "ndb1"
      "drive upload failed" wGenPending wTopic1 wModule
      { id := "np1", url := "nurl1" } "f-root" "f-mod" "f-top"
      rfl (by decide) rfl rfl rfl rfl rfl rfl rfl).1,
   (process_response_upload_failure_rollback wDB wEnvUploadFail "g-pend" "resp" "ndb1"
      "drive upload failed" wGenPending wTopic1 wModule
      { id := "np1", url := "nurl1" } "f-root" "f-mod" "f-top"
      rfl (by decide) rfl rfl rfl rfl rfl rfl rfl).2.1⟩

/-- C6: a successful `process_response` returns the input generation id
together with the page and file URLs, and the stored generation afterwards
has status COMPLETED, the document-store page id/url, the file-store backup
id/url, and the input response text. -/
theorem process_response_success (db : DB) (env : RemoteEnv)
    (gid resp ndb : String) (g : Generation) (topic : Topic) (mdl : Module)
    (np : NotionPage) (df : DriveFile) (rid mfid tfid : String)
    (hfind : GenerationRepository.get_by_id db gid = some g)
    (hnc : g.status ≠ GenerationStatus.COMPLETED)
    (htopic : TopicRepository.get_by_id db g.topic_id = some topic)
    (hmod : ModuleRepository.get_by_id db topic.module_id = some mdl)
    (hcp : env.create_page = Except.ok np)
    (hroot : env.root_folder = Except.ok rid)
    (hmf : env.module_folder = Except.ok mfid)
    (htf : env.topic_folder = Except.ok tfid)
    (hup : env.upload_file = Except.ok df) :
    ((process_response db env gid resp ndb).result = Except.ok (np.url, df.url, gid))
  ∧ GenerationRepository.get_by_id (process_response db env gid resp ndb).db gid =
      some { g with
        response_content := some resp,
        notion_page_id := some np.id,
        notion_url := some np.url,
        drive_backup_id := some df.id,
        drive_backup_url := some df.url,
        status := GenerationStatus.COMPLETED } := by
  have hne : (g.status == GenerationStatus.COMPLETED) = false := by
    cases hst : g.status with
    | COMPLETED => exact absurd hst hnc
    | PENDING => rfl
    | FAILED => rfl
  constructor
  · unfold process_response
    rw [hfind]
    simp [hne, htopic, hmod, hcp, hroot, hmf, htf, hup]
  · have hkey := get_by_id_update db gid g
      { g with
        response_content := some resp,
        notion_page_id := some np.id,
        notion_url := some np.url,
        drive_backup_id := some df.id,
        drive_backup_url := some df.url,
        status := GenerationStatus.COMPLETED } hfind rfl
    unfold process_response
    rw [hfind]
    simp only [hne, Bool.false_eq_true, if_neg, htopic, hmod, hcp, hroot, hmf, htf, hup]
    simpa using hkey

/-- Witness for C6: publishing the fixture pending generation with every
client call succeeding returns its id and the fixture URLs, and the record
afterwards is COMPLETED with all references set. -/
theorem process_response_success_witness :
    ((process_response wDB wEnvOk "g-pend" "resp" "ndb1").result =
      Except.ok ("nurl1", "durl1", "g-pend"))
  ∧ GenerationRepository.get_by_id (process_response wDB wEnvOk "g-pend" "resp" "ndb1").db
      "g-pend" =
      some { wGenPending with
        response_content := some "resp",
        notion_page_id := some "np1",
        notion_url := some "nurl1",
        drive_backup_id := some "df1",
        drive_backup_url := some "durl1",
        status := GenerationStatus.COMPLETED } :=
  process_response_success wDB wEnvOk "g-pend" "resp" "ndb1" wGenPending wTopic1 wModule
    { id := "np1", url := "nurl1" } { id := "df1", url := "durl1" }
    "f-root" "f-mod" "f-top" rfl (by decide) rfl rfl rfl rfl rfl rfl rfl

/-- C3: for every topic and stage, `can_generate_stage` allows exactly when
its reason list is empty; the reasons are one "Missing <type>" per required
type — the fixed cumulative requirement lists — absent from the topic's
ACTIVE content, in requirement order, plus the distinct "Missing completed
MK2 generation" reason for MK3 when no COMPLETED MK2 generation exists. -/
theorem stage_gate_matches_spec (db : DB) (tid : String) (stage : Stage) :
    ((can_generate_stage db tid stage).1 = true ↔
      (can_generate_stage db tid stage).2 = [])
  ∧ (can_generate_stage db tid stage).2 =
      ((get_required_files_for_stage stage).filter
          (fun ty => !specHasActiveType db tid ty)).map
        (fun ty => "Missing " ++ pyTitleOfUnderscored ty.value)
      ++ (if stage == Stage.MK3 && !specHasCompletedMK2 db tid then
            ["Missing completed MK2 generation"] else [])
  ∧ (get_required_files_for_stage Stage.MK1 = [ContentType.LECTURE_PDF])
  ∧ (get_required_files_for_stage Stage.MK2 =
      [ContentType.LECTURE_PDF, ContentType.SOURCE_MATERIAL, ContentType.TUTORIAL_PDF])
  ∧ (get_required_files_for_stage Stage.MK3 =
      [ContentType.LECTURE_PDF, ContentType.SOURCE_MATERIAL, ContentType.TUTORIAL_PDF,
        ContentType.TRANSCRIPT]) := by
  refine ⟨?_, ?_, rfl, rfl, rfl⟩
  · exact List.isEmpty_iff
  · simp only [can_generate_stage]
    congr 1
    · apply congrArg
      apply List.filter_congr
      intro ty _
      rw [uploaded_contains db tid ty]
    · rw [completed_isEmpty db tid]

/-- Witness for C3: on the fixture topic `t2` (lecture upload only), stage
MK2 is disallowed with exactly the source-material and tutorial reasons. -/
theorem stage_gate_matches_spec_witness :
    (can_generate_stage wDB "t2" Stage.MK2).2 =
      ["Missing Source Material", "Missing Tutorial Pdf"]
  ∧ (can_generate_stage wDB "t2" Stage.MK2).1 = false :=
  have h := stage_gate_matches_spec wDB "t2" Stage.MK2
  have h2 : (can_generate_stage wDB "t2" Stage.MK2).2 =
      ["Missing Source Material", "Missing Tutorial Pdf"] :=
    h.2.1.trans (by decide)
  ⟨h2, by
    cases hb : (can_generate_stage wDB "t2" Stage.MK2).1 with
    | false => rfl
    | true => rw [h.1.mp hb] at h2; exact absurd h2 (by decide)⟩

/-- C4: `get_next_version` returns 1 when no generation exists for the exact
topic+stage pair and `max + 1` otherwise: it is strictly above every
existing version of the pair and equals one existing version plus one; and
it is independent of generations of any other topic or stage, so MK1
versions do not advance MK2's counter. -/
theorem next_version_spec (db : DB) (tid : String) (st : Stage) :
    ((∀ g ∈ db.generations, ¬(g.topic_id = tid ∧ g.stage = st)) →
      GenerationRepository.get_next_version db tid st = 1)
  ∧ (∀ g ∈ db.generations, g.topic_id = tid → g.stage = st →
      g.version < GenerationRepository.get_next_version db tid st)
  ∧ ((∃ g ∈ db.generations, g.topic_id = tid ∧ g.stage = st) →
      ∃ m ∈ db.generations, m.topic_id = tid ∧ m.stage = st ∧
        GenerationRepository.get_next_version db tid st = m.version + 1)
  ∧ (∀ g, (g.topic_id ≠ tid ∨ g.stage ≠ st) →
      GenerationRepository.get_next_version
          { db with generations := g :: db.generations } tid st =
        GenerationRepository.get_next_version db tid st) := by
  refine ⟨?_, ?_, ?_, ?_⟩
  · intro h
    have hfil : db.generations.filter
        (fun g => g.topic_id == tid && g.stage == st) = [] := by
      rw [List.filter_eq_nil_iff]
      intro a ha
      intro hpa
      simp only [Bool.and_eq_true, beq_iff_eq] at hpa
      exact h a ha hpa
    unfold GenerationRepository.get_next_version
    rw [hfil]
    rfl
  · intro g hg h1 h2
    have hmem : g.version ∈ (db.generations.filter
        (fun g => g.topic_id == tid && g.stage == st)).map (fun g => g.version) := by
      rw [List.mem_map]
      refine ⟨g, ?_, rfl⟩
      rw [List.mem_filter]
      exact ⟨hg, by simp [h1, h2]⟩
    unfold GenerationRepository.get_next_version
    exact Nat.lt_succ_of_le (le_foldr_max hmem)
  · rintro ⟨g, hg, h1, h2⟩
    have hne : (db.generations.filter
        (fun g => g.topic_id == tid && g.stage == st)).map (fun g => g.version) ≠ [] := by
      intro hnil
      have hmem : g.version ∈ (db.generations.filter
          (fun g => g.topic_id == tid && g.stage == st)).map (fun g => g.version) := by
        rw [List.mem_map]
        refine ⟨g, ?_, rfl⟩
        rw [List.mem_filter]
        exact ⟨hg, by simp [h1, h2]⟩
      rw [hnil] at hmem
      cases hmem
    have hmax := foldr_max_mem _ hne
    rw [List.mem_map] at hmax
    obtain ⟨m, hm, hmv⟩ := hmax
    rw [List.mem_filter] at hm
    obtain ⟨hmem, hpred⟩ := hm
    simp only [Bool.and_eq_true, beq_iff_eq] at hpred
    refine ⟨m, hmem, hpred.1, hpred.2, ?_⟩
    unfold GenerationRepository.get_next_version
    rw [hmv]
  · intro g hgne
    have hpg : (g.topic_id == tid && g.stage == st) = false := by
      rcases hgne with h | h
      · cases hb : (g.topic_id == tid) with
        | false => rfl
        | true => exact absurd (beq_iff_eq.mp hb) h
      · cases hb : (g.stage == st) with
        | false => simp
        | true => exact absurd (beq_iff_eq.mp hb) h
    unfold GenerationRepository.get_next_version
    rw [show ({ db with generations := g :: db.generations } : DB).generations =
        g :: db.generations from rfl,
      List.filter_cons_of_neg (by rw [hpg]; exact Bool.false_ne_true)]

/-- Witness for C4: topic `t2` has MK1 versions 1 and 2 but no MK2
generation, and its next MK2 version is 1; adding another topic's MK2
generation leaves `t2`'s MK2 counter unchanged. -/
theorem next_version_spec_witness :
    GenerationRepository.get_next_version wDB "t2" Stage.MK2 = 1
  ∧ GenerationRepository.get_next_version
        { wDB with generations := wGenMK2 :: wDB.generations } "t2" Stage.MK2 =
      GenerationRepository.get_next_version wDB "t2" Stage.MK2 :=
  ⟨(next_version_spec wDB "t2" Stage.MK2).1 (by decide),
   (next_version_spec wDB "t2" Stage.MK2).2.2.2 wGenMK2 (Or.inl (by decide))⟩

/-- C7: with the MK3 gate satisfied and topic/module present, the MK2
generation feeding `start_generation` is a COMPLETED MK2 generation of the
topic with the highest version among them; a missing (or empty) response on
it aborts with the distinct data-integrity error, and otherwise the created
record carries its id as `previous_generation_id` and a prompt rendered
with its response text as previous content. -/
theorem start_generation_mk3_previous (db : DB) (tid nid : String) (now : Nat)
    (topic : Topic) (mdl : Module) (latest : Generation) (rest : List Generation)
    (hcan : (can_generate_stage db tid Stage.MK3).1 = true)
    (htopic : TopicRepository.get_by_id db tid = some topic)
    (hmod : ModuleRepository.get_by_id db topic.module_id = some mdl)
    (hcomp : GenerationRepository.get_completed_for_stage db tid Stage.MK2 =
      latest :: rest) :
    (latest ∈ db.generations ∧ latest.topic_id = tid ∧ latest.stage = Stage.MK2 ∧
      latest.status = GenerationStatus.COMPLETED)
  ∧ (∀ g ∈ db.generations, g.topic_id = tid → g.stage = Stage.MK2 →
      g.status = GenerationStatus.COMPLETED → g.version ≤ latest.version)
  ∧ (optStrFalsy latest.response_content = true →
      start_generation db tid Stage.MK3 nid now =
        Except.error "MK2 generation is marked as completed but has no response content")
  ∧ (optStrFalsy latest.response_content = false →
      (start_generation db tid Stage.MK3 nid now).map
          (fun p => (p.1.previous_generation_id, p.1.prompt_used)) =
        Except.ok (some latest.id,
          renderTemplate Stage.MK3 topic.name mdl.name
            ((ContentRepository.get_for_topic db tid).map (fun item => item.file_name))
            latest.response_content)) := by
  have hperm := List.perm_insertionSort versionGE
    (db.generations.filter (fun g =>
      g.topic_id == tid && g.stage == Stage.MK2 &&
        g.status == GenerationStatus.COMPLETED))
  have hmem0 : latest ∈ GenerationRepository.get_completed_for_stage db tid Stage.MK2 := by
    rw [hcomp]; exact List.mem_cons_self _ _
  have hmemf : latest ∈ db.generations.filter (fun g =>
      g.topic_id == tid && g.stage == Stage.MK2 &&
        g.status == GenerationStatus.COMPLETED) :=
    hperm.mem_iff.mp hmem0
  rw [List.mem_filter] at hmemf
  obtain ⟨hmem, hpred⟩ := hmemf
  simp only [Bool.and_eq_true, beq_iff_eq] at hpred
  have hsorted : List.Sorted versionGE
      (GenerationRepository.get_completed_for_stage db tid Stage.MK2) :=
    List.sorted_insertionSort versionGE _
  rw [hcomp] at hsorted
  have hrest := List.rel_of_sorted_cons hsorted
  refine ⟨⟨hmem, hpred.1.1, hpred.1.2, hpred.2⟩, ?_, ?_, ?_⟩
  · intro g hg h1 h2 h3
    have hginf : g ∈ db.generations.filter (fun g =>
        g.topic_id == tid && g.stage == Stage.MK2 &&
          g.status == GenerationStatus.COMPLETED) := by
      rw [List.mem_filter]
      exact ⟨hg, by simp [h1, h2, h3]⟩
    have hgin : g ∈ GenerationRepository.get_completed_for_stage db tid Stage.MK2 :=
      hperm.mem_iff.mpr hginf
    rw [hcomp] at hgin
    rcases List.mem_cons.mp hgin with h | h
    · rw [h]
    · exact hrest g h
  · intro hfalsy
    simp [start_generation, hcan, htopic, hmod, hcomp, hfalsy]
  · intro hfalsy
    have hisNone : latest.response_content.isNone = false := by
      cases hrc : latest.response_content with
      | none => rw [hrc] at hfalsy; exact absurd hfalsy (by decide)
      | some s => rfl
    simp [start_generation, hcan, htopic, hmod, hcomp, hfalsy, build_prompt, hisNone,
      Except.map, Generation.create]

/-- Witness for C7: starting MK3 for fixture topic `t1` takes the previous
content from the COMPLETED MK2 generation `g-mk2`, records its id, and
renders the prompt with its response text. -/
theorem start_generation_mk3_previous_witness :
    (start_generation wDB "t1" Stage.MK3 "g-new" 100).map
        (fun p => (p.1.previous_generation_id, p.1.prompt_used)) =
      Except.ok (some "g-mk2",
        renderTemplate Stage.MK3 "Easements" "Land Law"
          ["lec.pdf", "src.pdf", "tut.pdf", "tr.txt"] (some "MK2 output")) := by
  have h := (start_generation_mk3_previous wDB "t1" "g-new" 100 wTopic1 wModule
    wGenMK2 [] (by decide) rfl rfl (by decide)).2.2.2 (by decide)
  rw [h]
  rfl

end LawFlow
